import Mathlib

/-!
Verification of the `klonk-result` Proxy-based Result membrane.

This file gives a shallow embedding of `src/index.ts`: a `Result<T>` is either
an `_Ok` (tag `success = true`, carrying a private `#data` slot) or an `_Err`
(tag `success = false`, carrying an own `error` property), and the constructor
wraps the instance in a Proxy whose `get`/`set` traps implement the membrane:

* `get`: the `"then"` probe answers `undefined`; the reserved API names
  (`success`, `isOk`, `isErr`, `unwrap`, `error`, `throw`) resolve against the
  Result instance itself (functions bound to it); on a Failure every other
  name yields a sticky no-op continuation returning the receiver; on a Success
  every other name is forwarded to the wrapped value (primitives boxed first),
  functions bound to the (possibly boxed) host.
* `set`: reserved names write to the Result instance's own storage; writes on a
  Failure or on a Success wrapping `null`/a primitive are accepted no-ops;
  writes on a Success wrapping an object/function are forwarded via
  `Reflect.set` to the wrapped value.

Modelling notes:
* JS values are `JSValue`; objects live in an explicit `Heap` addressed by
  `Nat` so that reference identity and in-place mutation are observable.
* JS numbers are IEEE doubles; we idealize them as `Rat`. The claims only
  exercise numeric values and operations (`toFixed` at short exact decimals)
  where the rational semantics and the double semantics agree.
* Built-in prototypes (`Object.prototype`, `String.prototype`,
  `Number.prototype`, ...) are modelled by a representative subset of their
  members, enough to exhibit prototype inheritance through the membrane.
* Functions created by the membrane itself (sticky continuations, bound
  methods) are immediate values `JSValue.fnv`; their own object identity and
  property storage are never observed by the source's tests and are not
  modelled.
* Proxy traps can recurse (a Result wrapping a Result); the trap functions
  take a fuel parameter, and exhaustion models the JS stack-overflow
  `RangeError`.
-/

/-- JS primitive values (other than `null`/`undefined`): the five kinds the
source's boxing branch distinguishes (`String`, `Number`, `Boolean`, `BigInt`,
`Symbol`). Numbers are idealized as rationals (see module docstring). -/
inductive PrimV where
  | str (s : String)
  | num (q : Rat)
  | bool (b : Bool)
  | bigint (i : Int)
  | sym (n : Nat)
deriving DecidableEq, Repr

/-- The `host` object member lookup is forwarded to in the Ok branch of the
`get` trap: either a boxed primitive (`Object(inner)` on a primitive), a heap
object (`inner` itself when it is an object/function), or the fresh empty
object produced by `Object(null)` / `Object(undefined)`. -/
inductive Host where
  | boxed (p : PrimV)
  | object (a : Nat)
  | emptyBox
deriving DecidableEq, Repr

/-- The receiver a function value is applied with (`this`). -/
inductive ThisArg where
  | noThis
  | resultThis (a : Nat)
  | hostThis (host : Host)
deriving DecidableEq, Repr

/-- The Result class methods, tagged by the class that defines them:
`_ResultBase.isOk` / `_ResultBase.isErr`, `_Ok.unwrap`, `_Err.unwrap`,
`_Err.throw` (distinct functions, so `bind` captures the right body). -/
inductive RMethod where
  | isOkM
  | isErrM
  | unwrapOk
  | unwrapErr
  | throwErr
deriving DecidableEq, Repr

/-- The modelled built-in prototype methods (a representative subset of
`Object.prototype`, `String.prototype`, `Number.prototype`,
`Boolean.prototype`, `BigInt.prototype`). -/
inductive NMethod where
  | objToString
  | hasOwnProp
  | strToUpperCase
  | strStartsWith
  | strToString
  | strValueOf
  | numToFixed
  | numValueOf
  | boolToString
  | boolValueOf
  | bigToString
deriving DecidableEq, Repr

/-- JS function values that the membrane produces or forwards:
class/prototype methods (unbound), `f.bind(thisArg)` results, and the sticky
no-op continuation `(..._args) => receiver` the Err branch returns. -/
inductive FnVal where
  | resultMethod (m : RMethod)
  | nativeMethod (m : NMethod)
  | bound (f : FnVal) (thisArg : ThisArg)
  | sticky (receiver : Nat)
deriving DecidableEq, Repr

/-- JS values: `undefined`, `null`, primitives, heap references (objects and
Result proxies), and immediate function values. -/
inductive JSValue where
  | undefined
  | null
  | prim (p : PrimV)
  | ref (a : Nat)
  | fnv (f : FnVal)
deriving DecidableEq, Repr

/-- JS truthiness (`!x` in `isErr`, `if (target.isErr())` in the traps). -/
def truthy : JSValue → Bool
  | .undefined => false
  | .null => false
  | .prim (.str s) => decide (s ≠ "")
  | .prim (.num q) => decide (q ≠ 0)
  | .prim (.bool b) => b
  | .prim (.bigint i) => decide (i ≠ 0)
  | .prim (.sym _) => true
  | .ref _ => true
  | .fnv _ => true

/-- Own-property lookup in a property list. -/
def lookupField : List (String × JSValue) → String → Option JSValue
  | [], _ => none
  | (k', v') :: rest, k => if k' = k then some v' else lookupField rest k

/-- The `Reflect.set`-style own-property update (creates the property if absent,
as `Reflect.set(target, prop, value, target)` does on writable data props). -/
def setField : List (String × JSValue) → String → JSValue → List (String × JSValue)
  | [], k, v => [(k, v)]
  | (k', v') :: rest, k, v =>
      if k' = k then (k, v) :: rest else (k', v') :: setField rest k v

/-- Which class a Result instance was constructed from (`_Ok` vs `_Err`);
this is fixed at construction and determines the prototype chain and the
private `#data` slot, independently of the mutable `success` own property. -/
inductive Variant where
  | ok
  | err
deriving DecidableEq, Repr

/-- The state of a Result instance: its class, its own (mutable) data
properties (`success`, and `error` for `_Err`; `Reflect.set` may add more),
and the `_Ok` private field `#data` (unreachable from outside the class). -/
structure ResultData where
  variant : Variant
  ownProps : List (String × JSValue)
  data : JSValue
deriving DecidableEq, Repr

/-- Heap objects: plain objects, function objects used as wrapped data
(callable, with own properties; their call behavior is never needed by the
source's contract), and Result instances (the proxy and its target share one
address: the proxy has no storage of its own). -/
inductive HeapObj where
  | plain (fields : List (String × JSValue))
  | funcO (fields : List (String × JSValue))
  | result (rd : ResultData)
deriving DecidableEq, Repr

/-- The heap: addresses are list indices. -/
structure Heap where
  objs : List HeapObj
deriving DecidableEq, Repr

def Heap.lookup (h : Heap) (a : Nat) : Option HeapObj :=
  h.objs[a]?

def Heap.update (h : Heap) (a : Nat) (o : HeapObj) : Heap :=
  ⟨h.objs.set a o⟩

/-- The reserved Result API names, exactly the source's `RESULT_KEYS`. -/
def RESULT_KEYS : List String :=
  ["success", "isOk", "isErr", "unwrap", "error", "throw"]

/-- Thrown `TypeError` stand-in (its structure is irrelevant to the claims). -/
def jsTypeError : JSValue := .prim (.str "TypeError")

/-- Thrown `RangeError` stand-in (e.g. out-of-range `toFixed` digits). -/
def jsRangeError : JSValue := .prim (.str "RangeError")

/-- Stack exhaustion on unbounded proxy recursion. -/
def jsStackOverflow : JSValue :=
  .prim (.str "RangeError: Maximum call stack size exceeded")

/-- Own property read on a Result instance, `undefined` when absent
(`this.success`, `this.error` in the class methods). -/
def resultOwnProp (rd : ResultData) (k : String) : JSValue :=
  (lookupField rd.ownProps k).getD .undefined

/-- The class prototype chain of a Result instance: `_Ok.prototype` carries
`unwrap`; `_Err.prototype` carries `unwrap` and `throw`; both inherit `isOk`
and `isErr` from `_ResultBase.prototype`, and `Object.prototype` above it. -/
def protoGet : Variant → String → JSValue
  | .ok, "unwrap" => .fnv (.resultMethod .unwrapOk)
  | .ok, "isOk" => .fnv (.resultMethod .isOkM)
  | .ok, "isErr" => .fnv (.resultMethod .isErrM)
  | .err, "unwrap" => .fnv (.resultMethod .unwrapErr)
  | .err, "throw" => .fnv (.resultMethod .throwErr)
  | .err, "isOk" => .fnv (.resultMethod .isOkM)
  | .err, "isErr" => .fnv (.resultMethod .isErrM)
  | _, p => objProtoGet p
where
  /-- Representative subset of `Object.prototype` (its real member set is
  larger — `valueOf`, `isPrototypeOf`, ... — but these two suffice to exhibit
  prototype inheritance). -/
  objProtoGet : String → JSValue
    | "toString" => .fnv (.nativeMethod .objToString)
    | "hasOwnProperty" => .fnv (.nativeMethod .hasOwnProp)
    | _ => .undefined

/-- The read `Reflect.get(target, prop, target)` on a Result instance: own properties
first, then the class prototype chain. -/
def resultMemberGet (rd : ResultData) (k : String) : JSValue :=
  (lookupField rd.ownProps k).getD (protoGet rd.variant k)

/-- The trap epilogue `typeof v === "function" ? v.bind(receiver) : v`. -/
def bindIfFn (v : JSValue) (t : ThisArg) : JSValue :=
  match v with
  | .fnv f => .fnv (.bound f t)
  | v' => v'

/-- Member lookup on a plain object: own fields, then `Object.prototype`. -/
def plainGet (fields : List (String × JSValue)) (k : String) : JSValue :=
  (lookupField fields k).getD (protoGet.objProtoGet k)

/-- Member lookup on a boxed primitive: the box's own/prototype members
(representative subset), then `Object.prototype`. -/
def boxedGet (p : PrimV) (k : String) : JSValue :=
  match p with
  | .str s =>
      if k = "length" then .prim (.num (mkRat s.length 1))
      else if k = "toUpperCase" then .fnv (.nativeMethod .strToUpperCase)
      else if k = "startsWith" then .fnv (.nativeMethod .strStartsWith)
      else if k = "toString" then .fnv (.nativeMethod .strToString)
      else if k = "valueOf" then .fnv (.nativeMethod .strValueOf)
      else protoGet.objProtoGet k
  | .num _ =>
      if k = "toFixed" then .fnv (.nativeMethod .numToFixed)
      else if k = "valueOf" then .fnv (.nativeMethod .numValueOf)
      else protoGet.objProtoGet k
  | .bool _ =>
      if k = "toString" then .fnv (.nativeMethod .boolToString)
      else if k = "valueOf" then .fnv (.nativeMethod .boolValueOf)
      else protoGet.objProtoGet k
  | .bigint _ =>
      if k = "toString" then .fnv (.nativeMethod .bigToString)
      else protoGet.objProtoGet k
  | .sym _ => protoGet.objProtoGet k

/-- Model of `String.prototype.toUpperCase` (the claims only exercise ASCII data). -/
def jsToUpper (s : String) : String :=
  ⟨s.data.map Char.toUpper⟩

/-- Model of `String.prototype.startsWith` on a string search argument. -/
def jsStartsWith (s p : String) : Bool :=
  p.data.isPrefixOf s.data

/-- Format a nonnegative scaled integer `m` with `d` decimal places (the
digit-string assembly step of `toFixed`). -/
def fixedFormat (m : Nat) (d : Nat) : String :=
  if d = 0 then Nat.repr m
  else
    let digits := (Nat.repr m).data
    let padded := List.replicate (d + 1 - digits.length) '0' ++ digits
    ⟨padded.take (padded.length - d) ++ '.' :: padded.drop (padded.length - d)⟩

/-- Model of `Number.prototype.toFixed` on the rational idealization: the
spec picks the integer `n` with `n / 10^d` closest to the value, ties going
to the larger `n`, i.e. `n = ⌊q·10^d + 1/2⌋`, here computed on the reduced
numerator/denominator as `⌊(2·num·10^d + den) / (2·den)⌋`. -/
def toFixedStr (q : Rat) (d : Nat) : String :=
  let n : Int := Int.fdiv (2 * q.num * (10 : Int) ^ d + (q.den : Int)) (2 * (q.den : Int))
  if n < 0 then "-" ++ fixedFormat n.natAbs d else fixedFormat n.toNat d

/-- Semantics of the modelled built-in methods, applied with receiver `t`.
Argument coercions the claims never exercise (e.g. `startsWith` on a
non-string argument) are not modelled and answer with a thrown `TypeError`. -/
def callNative (h : Heap) (m : NMethod) (t : ThisArg) (args : List JSValue) :
    Except JSValue JSValue :=
  match m, t with
  | .objToString, .hostThis (.boxed (.str _)) => .ok (.prim (.str "[object String]"))
  | .objToString, .hostThis (.boxed (.num _)) => .ok (.prim (.str "[object Number]"))
  | .objToString, .hostThis (.boxed (.bool _)) => .ok (.prim (.str "[object Boolean]"))
  | .objToString, _ => .ok (.prim (.str "[object Object]"))
  | .hasOwnProp, .hostThis (.object a) =>
      match args.head? with
      | some (.prim (.str k)) =>
          match h.lookup a with
          | some (.plain fields) => .ok (.prim (.bool (lookupField fields k).isSome))
          | some (.funcO fields) => .ok (.prim (.bool (lookupField fields k).isSome))
          | some (.result rd) => .ok (.prim (.bool (lookupField rd.ownProps k).isSome))
          | none => .error jsTypeError
      | _ => .error jsTypeError
  | .hasOwnProp, .resultThis a =>
      match args.head? with
      | some (.prim (.str k)) =>
          match h.lookup a with
          | some (.result rd) => .ok (.prim (.bool (lookupField rd.ownProps k).isSome))
          | _ => .error jsTypeError
      | _ => .error jsTypeError
  | .hasOwnProp, .hostThis (.boxed (.str _)) =>
      match args.head? with
      | some (.prim (.str k)) => .ok (.prim (.bool (k = "length")))
      | _ => .error jsTypeError
  | .hasOwnProp, .hostThis (.boxed _) =>
      match args.head? with
      | some (.prim (.str _)) => .ok (.prim (.bool false))
      | _ => .error jsTypeError
  | .hasOwnProp, .hostThis .emptyBox =>
      match args.head? with
      | some (.prim (.str _)) => .ok (.prim (.bool false))
      | _ => .error jsTypeError
  | .hasOwnProp, .noThis => .error jsTypeError
  | .strToUpperCase, .hostThis (.boxed (.str s)) => .ok (.prim (.str (jsToUpper s)))
  | .strToUpperCase, _ => .error jsTypeError
  | .strStartsWith, .hostThis (.boxed (.str s)) =>
      match args.head? with
      | some (.prim (.str p)) => .ok (.prim (.bool (jsStartsWith s p)))
      | _ => .error jsTypeError
  | .strStartsWith, _ => .error jsTypeError
  | .strToString, .hostThis (.boxed (.str s)) => .ok (.prim (.str s))
  | .strToString, _ => .error jsTypeError
  | .strValueOf, .hostThis (.boxed (.str s)) => .ok (.prim (.str s))
  | .strValueOf, _ => .error jsTypeError
  | .numToFixed, .hostThis (.boxed (.num q)) =>
      match args.head? with
      | none => .ok (.prim (.str (toFixedStr q 0)))
      | some (.prim (.num dq)) =>
          if dq.floor < 0 ∨ 100 < dq.floor then .error jsRangeError
          else .ok (.prim (.str (toFixedStr q dq.floor.toNat)))
      | some _ => .error jsTypeError
  | .numToFixed, _ => .error jsTypeError
  | .numValueOf, .hostThis (.boxed (.num q)) => .ok (.prim (.num q))
  | .numValueOf, _ => .error jsTypeError
  | .boolToString, .hostThis (.boxed (.bool b)) =>
      .ok (.prim (.str (if b then "true" else "false")))
  | .boolToString, _ => .error jsTypeError
  | .boolValueOf, .hostThis (.boxed (.bool b)) => .ok (.prim (.bool b))
  | .boolValueOf, _ => .error jsTypeError
  | .bigToString, .hostThis (.boxed (.bigint i)) => .ok (.prim (.str (toString i)))
  | .bigToString, _ => .error jsTypeError

/-- Semantics of the Result class methods with `this` bound to the instance
at address `a` (reading `this.success` / `this.error` as own-property reads,
`this.#data` as the private slot). -/
def callResultMethod (h : Heap) (m : RMethod) (a : Nat) : Except JSValue JSValue :=
  match h.lookup a with
  | some (.result rd) =>
      match m with
      | .isOkM => .ok (resultOwnProp rd "success")
      | .isErrM => .ok (.prim (.bool (!truthy (resultOwnProp rd "success"))))
      | .unwrapOk => .ok rd.data
      | .unwrapErr => .error (resultOwnProp rd "error")
      | .throwErr => .error (resultOwnProp rd "error")
  | _ => .error jsTypeError

/-- Apply a function value with an explicit receiver. A `bound` function uses
its captured receiver (innermost binding wins, as with `Function.bind`); the
sticky continuation ignores receiver and arguments and returns the captured
Result reference; calling a class method with a foreign receiver (which would
trip the private-slot / property reads) is a thrown `TypeError`. -/
def callWithThis (h : Heap) : FnVal → ThisArg → List JSValue → Except JSValue JSValue
  | .bound g t0, _, args => callWithThis h g t0 args
  | .sticky r, _, _ => .ok (.ref r)
  | .resultMethod m, .resultThis a, _ => callResultMethod h m a
  | .resultMethod _, _, _ => .error jsTypeError
  | .nativeMethod m, t, args => callNative h m t args

/-- Plain call `f(...args)` (receiver `undefined`). -/
def callFn (h : Heap) (f : FnVal) (args : List JSValue) : Except JSValue JSValue :=
  callWithThis h f .noThis args

/-- The method call `target.isErr()` the traps perform: an own property named
`isErr` (if `Reflect.set` ever created one) shadows the class method. -/
def isErrCall (h : Heap) (a : Nat) (rd : ResultData) : Except JSValue JSValue :=
  match lookupField rd.ownProps "isErr" with
  | some (.fnv f) => callWithThis h f (.resultThis a) []
  | some _ => .error jsTypeError
  | none => .ok (.prim (.bool (!truthy (resultOwnProp rd "success"))))

/-- The method call `target.unwrap()` the traps perform: an own property named
`unwrap` shadows the class method; otherwise `_Ok.unwrap` returns `this.#data`
and `_Err.unwrap` throws `this.error`. -/
def unwrapDispatch (h : Heap) (a : Nat) (rd : ResultData) : Except JSValue JSValue :=
  match lookupField rd.ownProps "unwrap" with
  | some (.fnv f) => callWithThis h f (.resultThis a) []
  | some _ => .error jsTypeError
  | none =>
      match rd.variant with
      | .ok => .ok rd.data
      | .err => .error (resultOwnProp rd "error")

/-- The Proxy `get` trap of `_ResultBase.__proxify`, reading property `prop`
on the Result at address `a`. Follows the source line by line:
1. `prop === "then"` answers `undefined`;
2. reserved `RESULT_KEYS` resolve via `Reflect.get(target, prop, target)`,
   functions bound to the target;
3. if `target.isErr()`, return the sticky continuation `(..._args) => receiver`;
4. otherwise forward to `inner = target.unwrap()`, boxing primitives
   (`Object(inner)`), functions bound to the host. `Reflect.get` on an inner
   value that is itself a Result proxy re-enters that proxy's `get` trap
   (hence the fuel). -/
def resultGet : Nat → Heap → Nat → String → Except JSValue JSValue
  | 0, _, _, _ => .error jsStackOverflow
  | fuel + 1, h, a, prop =>
      match h.lookup a with
      | some (.result rd) =>
          if prop = "then" then .ok .undefined
          else if prop ∈ RESULT_KEYS then
            .ok (bindIfFn (resultMemberGet rd prop) (.resultThis a))
          else
            match isErrCall h a rd with
            | .error e => .error e
            | .ok b =>
                if truthy b then .ok (.fnv (.sticky a))
                else
                  match unwrapDispatch h a rd with
                  | .error e => .error e
                  | .ok inner =>
                      match inner with
                      | .ref ia =>
                          match h.lookup ia with
                          | some (.plain fields) =>
                              .ok (bindIfFn (plainGet fields prop) (.hostThis (.object ia)))
                          | some (.funcO fields) =>
                              .ok (bindIfFn (plainGet fields prop) (.hostThis (.object ia)))
                          | some (.result _) =>
                              (resultGet fuel h ia prop).map
                                (fun v => bindIfFn v (.hostThis (.object ia)))
                          | none => .error jsTypeError
                      | .fnv _ => .ok .undefined
                      | .null => .ok (bindIfFn (plainGet [] prop) (.hostThis .emptyBox))
                      | .undefined => .ok (bindIfFn (plainGet [] prop) (.hostThis .emptyBox))
                      | .prim p => .ok (bindIfFn (boxedGet p prop) (.hostThis (.boxed p)))
      | _ => .error jsTypeError

/-- The Proxy `set` trap of `_ResultBase.__proxify`, writing `v` to property
`prop` on the Result at address `a`. Follows the source line by line:
1. reserved `RESULT_KEYS` write to the target's own storage
   (`Reflect.set(target, prop, value, target)`);
2. if `target.isErr()`, accept the write with no effect;
3. if `inner = target.unwrap()` is `null` or a non-object non-function,
   accept the write with no effect;
4. otherwise `Reflect.set(inner, prop, value, inner)` (re-entering the `set`
   trap when the inner value is itself a Result proxy — hence the fuel;
   property storage of immediate membrane closures is not modelled and the
   write is accepted without effect). -/
def resultSet : Nat → Heap → Nat → String → JSValue → Except JSValue (Bool × Heap)
  | 0, _, _, _, _ => .error jsStackOverflow
  | fuel + 1, h, a, prop, v =>
      match h.lookup a with
      | some (.result rd) =>
          if prop ∈ RESULT_KEYS then
            .ok (true, h.update a (.result { rd with ownProps := setField rd.ownProps prop v }))
          else
            match isErrCall h a rd with
            | .error e => .error e
            | .ok b =>
                if truthy b then .ok (true, h)
                else
                  match unwrapDispatch h a rd with
                  | .error e => .error e
                  | .ok inner =>
                      match inner with
                      | .ref ia =>
                          match h.lookup ia with
                          | some (.plain fields) =>
                              .ok (true, h.update ia (.plain (setField fields prop v)))
                          | some (.funcO fields) =>
                              .ok (true, h.update ia (.funcO (setField fields prop v)))
                          | some (.result _) => resultSet fuel h ia prop v
                          | none => .error jsTypeError
                      | .fnv _ => .ok (true, h)
                      | _ => .ok (true, h)
      | _ => .error jsTypeError

/-- The discriminated constructor payload `ResultParams<T>`. -/
inductive ResultParams where
  | okParams (data : JSValue)
  | errParams (error : JSValue)
deriving DecidableEq, Repr

/-- The state a freshly constructed instance has: `new _Ok(data)` sets the
class field `success = true` and the private slot `#data = data`;
`new _Err(error)` sets `success = false` and the own field `error`. -/
def mkResultData : ResultParams → ResultData
  | .okParams d => ⟨.ok, [("success", .prim (.bool true))], d⟩
  | .errParams e => ⟨.err, [("success", .prim (.bool false)), ("error", e)], .undefined⟩

/-- The constructor `new Result(params)`: allocate the (proxified) instance, returning the new
heap and the address of the Result. -/
def newResult (h : Heap) (p : ResultParams) : Heap × Nat :=
  (⟨h.objs ++ [.result (mkResultData p)]⟩, h.objs.length)

/-- The compound user operation `result.m(...args)`: read `m` through the
`get` trap, then call the resulting function value. -/
def callMember (fuel : Nat) (h : Heap) (a : Nat) (m : String) (args : List JSValue) :
    Except JSValue JSValue :=
  match resultGet fuel h a m with
  | .error e => .error e
  | .ok (.fnv f) => callFn h f args
  | .ok _ => .error jsTypeError

/-- A chain `r.m1(...).m2(...)...`: each step reads a member on the current
value (which must be a Result reference) and calls it. -/
def chainCalls (fuel : Nat) (h : Heap) : JSValue → List (String × List JSValue) →
    Except JSValue JSValue
  | v, [] => .ok v
  | v, (m, args) :: rest =>
      match v with
      | .ref a =>
          match resultGet fuel h a m with
          | .error e => .error e
          | .ok (.fnv f) =>
              match callFn h f args with
              | .error e => .error e
              | .ok v' => chainCalls fuel h v' rest
          | .ok _ => .error jsTypeError
      | _ => .error jsTypeError

/-- The state after `result.success = false` on a freshly constructed Ok:
the heap with the instance's own `success` property overwritten (class still
`_Ok`, private `#data` untouched), together with the Result's address. -/
def escapeHatchOk (h : Heap) (d : JSValue) : Heap × Nat :=
  ((newResult h (.okParams d)).1.update (newResult h (.okParams d)).2
    (.result ⟨.ok, [("success", .prim (.bool false))], d⟩),
   (newResult h (.okParams d)).2)

/-- The state after `result.error = e2` on a freshly constructed Err: the
heap with the instance's own `error` property replaced. -/
def escapeHatchErr (h : Heap) (e e2 : JSValue) : Heap × Nat :=
  ((newResult h (.errParams e)).1.update (newResult h (.errParams e)).2
    (.result ⟨.err, [("success", .prim (.bool false)), ("error", e2)], .undefined⟩),
   (newResult h (.errParams e)).2)

/-- Decidable equality of trap/call outcomes, for evaluating the model at
concrete inputs. -/
instance : DecidableEq (Except JSValue JSValue)
  | .ok a, .ok b =>
      if h : a = b then .isTrue (by rw [h]) else .isFalse (fun hc => h (Except.ok.inj hc))
  | .error a, .error b =>
      if h : a = b then .isTrue (by rw [h]) else .isFalse (fun hc => h (Except.error.inj hc))
  | .ok _, .error _ => .isFalse Except.noConfusion
  | .error _, .ok _ => .isFalse Except.noConfusion

/-- Decidable equality of `set`-trap outcomes. -/
instance : DecidableEq (Except JSValue (Bool × Heap))
  | .ok a, .ok b =>
      if h : a = b then .isTrue (by rw [h]) else .isFalse (fun hc => h (Except.ok.inj hc))
  | .error a, .error b =>
      if h : a = b then .isTrue (by rw [h]) else .isFalse (fun hc => h (Except.error.inj hc))
  | .ok _, .error _ => .isFalse Except.noConfusion
  | .error _, .ok _ => .isFalse Except.noConfusion

/-! ## Helper lemmas about the heap -/

theorem Heap.lookup_newResult (h : Heap) (p : ResultParams) :
    (newResult h p).1.lookup (newResult h p).2 = some (.result (mkResultData p)) := by
  simp [newResult, Heap.lookup, List.getElem?_concat_length]

theorem Heap.lookup_update_self (h : Heap) (a : Nat) (o o' : HeapObj)
    (hl : h.lookup a = some o') : (h.update a o).lookup a = some o := by
  have hlt : a < h.objs.length := by
    by_contra hc
    push_neg at hc
    rw [Heap.lookup, List.getElem?_eq_none hc] at hl
    exact Option.noConfusion hl
  simp [Heap.update, Heap.lookup, List.getElem?_set_self hlt]

theorem Heap.lookup_update_ne (h : Heap) (a b : Nat) (o : HeapObj) (hab : a ≠ b) :
    (h.update a o).lookup b = h.lookup b := by
  simp [Heap.update, Heap.lookup, List.getElem?_set_ne hab]

theorem lookupField_setField (fields : List (String × JSValue)) (k : String) (v : JSValue) :
    lookupField (setField fields k v) k = some v := by
  induction fields with
  | nil => simp [setField, lookupField]
  | cons kv rest ih =>
      obtain ⟨k', v'⟩ := kv
      by_cases hk : k' = k <;> simp [setField, lookupField, hk, ih]

/-- On a freshly constructed Failure, any non-reserved, non-`"then"` read
takes the sticky branch of the `get` trap. -/
theorem sticky_get_of_err (fuel : Nat) (h : Heap) (a : Nat) (e : JSValue) (m : String)
    (hl : h.lookup a = some (.result (mkResultData (.errParams e))))
    (hm : m ∉ RESULT_KEYS) (hthen : m ≠ "then") :
    resultGet (fuel + 1) h a m = .ok (.fnv (.sticky a)) := by
  simp [resultGet, hl, hthen, hm, isErrCall, mkResultData, lookupField, resultOwnProp, truthy]

/-! ## The claims -/

/-- Claim C1: for every Result that is a Failure and every member name `m` that
is neither a reserved API name nor the promise-probe name `"then"`, reading
`m` never raises and yields a callable that, for any arguments, returns the
original Result object itself; hence an arbitrarily long chain of
member/method calls on a Failure returns the same Failure, the error
surfacing only via explicit `unwrap()` or `throw()`. -/
theorem claim_C1_sticky_failure (fuel : Nat) (h : Heap) (a : Nat) (e : JSValue) (m : String)
    (hl : h.lookup a = some (.result (mkResultData (.errParams e))))
    (hm : m ∉ RESULT_KEYS) (hthen : m ≠ "then") :
    resultGet (fuel + 1) h a m = .ok (.fnv (.sticky a)) ∧
    (∀ args : List JSValue, callFn h (.sticky a) args = .ok (.ref a)) ∧
    (∀ steps : List (String × List JSValue),
      (∀ s ∈ steps, s.1 ∉ RESULT_KEYS ∧ s.1 ≠ "then") →
      chainCalls (fuel + 1) h (.ref a) steps = .ok (.ref a)) := by
  refine ⟨sticky_get_of_err fuel h a e m hl hm hthen, fun _ => rfl, ?_⟩
  intro steps
  induction steps with
  | nil => intro _; rfl
  | cons s rest ih =>
      intro hsteps
      obtain ⟨m', args'⟩ := s
      have hs := hsteps _ (List.mem_cons_self _ _)
      have hget' := sticky_get_of_err fuel h a e m' hl hs.1 hs.2
      simp only [chainCalls, hget', callFn, callWithThis]
      exact ih fun s' hs' => hsteps s' (List.mem_cons_of_mem _ hs')

/-- Witness for C1 at a concrete Failure, member name and chain. -/
theorem claim_C1_sticky_failure_witness :
    resultGet 1 ⟨[.result (mkResultData (.errParams (.prim (.str "boom"))))]⟩ 0 "someProp" =
      .ok (.fnv (.sticky 0)) ∧
    callFn ⟨[.result (mkResultData (.errParams (.prim (.str "boom"))))]⟩ (.sticky 0) [.null] =
      .ok (.ref 0) ∧
    chainCalls 1 ⟨[.result (mkResultData (.errParams (.prim (.str "boom"))))]⟩ (.ref 0)
      [("add", [.prim (.num 5)]), ("save", [])] = .ok (.ref 0) := by
  have hc := claim_C1_sticky_failure 0 ⟨[.result (mkResultData (.errParams (.prim (.str "boom"))))]⟩
    0 (.prim (.str "boom")) "someProp" rfl (by decide) (by decide)
  exact ⟨hc.1, hc.2.1 [.null], hc.2.2 [("add", [.prim (.num 5)]), ("save", [])] (by decide)⟩

/-- Claim C2: a Result constructed from `{success:true, data}` returns exactly
that value (the same `JSValue`, hence the same reference for objects) from
`unwrap()`; a Result constructed from `{success:false, error}` raises exactly
that error from `unwrap()`, and its `throw()` raises exactly that error. -/
theorem claim_C2_construction_unwrap (fuel : Nat) (h : Heap) (d e : JSValue) :
    callMember (fuel + 1) (newResult h (.okParams d)).1 (newResult h (.okParams d)).2
      "unwrap" [] = .ok d ∧
    callMember (fuel + 1) (newResult h (.errParams e)).1 (newResult h (.errParams e)).2
      "unwrap" [] = .error e ∧
    callMember (fuel + 1) (newResult h (.errParams e)).1 (newResult h (.errParams e)).2
      "throw" [] = .error e := by
  refine ⟨?_, ?_, ?_⟩ <;>
    simp [callMember, resultGet, Heap.lookup_newResult, RESULT_KEYS, resultMemberGet,
      mkResultData, lookupField, protoGet, bindIfFn, callFn, callWithThis,
      callResultMethod, resultOwnProp]

/-- Claim C3: for every Result and every reserved API name, reading it resolves
against the Result object itself — own property or class prototype method,
with function members bound to the Result as receiver — irrespective of the
wrapped value (the right-hand side does not mention the wrapped data at
all, so the precedence holds even when the wrapped value has a member of the
same name). -/
theorem claim_C3_reserved_precedence (fuel : Nat) (h : Heap) (a : Nat) (rd : ResultData)
    (m : String) (hl : h.lookup a = some (.result rd)) (hm : m ∈ RESULT_KEYS) :
    resultGet (fuel + 1) h a m = .ok (bindIfFn (resultMemberGet rd m) (.resultThis a)) := by
  have hthen : m ≠ "then" := by
    intro hEq
    rw [hEq] at hm
    exact absurd hm (by decide)
  simp [resultGet, hl, hthen, hm]

/-- Witness for C3: an Ok wrapping an object that itself has `unwrap` and
`success` members; the reserved reads still resolve against the Result. -/
theorem claim_C3_reserved_precedence_witness :
    resultGet 1
      ⟨[.plain [("unwrap", .prim (.str "shadow")), ("success", .prim (.bool false))],
        .result (mkResultData (.okParams (.ref 0)))]⟩ 1 "success" =
      .ok (bindIfFn (resultMemberGet (mkResultData (.okParams (.ref 0))) "success")
        (.resultThis 1)) :=
  claim_C3_reserved_precedence 0 _ 1 _ "success" rfl (by decide)

/-- Claim C7: for every Result, Success or Failure and in any state, reading the
member named `"then"` yields `undefined` — the first branch of the `get`
trap, ahead of the reserved names, the sticky-failure continuation and the
forwarding to the wrapped value. -/
theorem claim_C7_then_probe (fuel : Nat) (h : Heap) (a : Nat) (rd : ResultData)
    (hl : h.lookup a = some (.result rd)) :
    resultGet (fuel + 1) h a "then" = .ok .undefined := by
  simp [resultGet, hl]

/-- Witness for C7 on a Success whose wrapped object even has a `then` member
of its own, and on a Failure. -/
theorem claim_C7_then_probe_witness :
    resultGet 1 ⟨[.plain [("then", .prim (.str "thenField"))],
      .result (mkResultData (.okParams (.ref 0))),
      .result (mkResultData (.errParams (.prim (.str "e"))))]⟩ 1 "then" = .ok .undefined ∧
    resultGet 1 ⟨[.plain [("then", .prim (.str "thenField"))],
      .result (mkResultData (.okParams (.ref 0))),
      .result (mkResultData (.errParams (.prim (.str "e"))))]⟩ 2 "then" = .ok .undefined :=
  ⟨claim_C7_then_probe 0 _ 1 _ rfl, claim_C7_then_probe 0 _ 2 _ rfl⟩

/-- Claim C4: on a Success wrapping a primitive, every non-reserved member read
resolves against the boxed object representation of the primitive, with
callable members bound to the boxed value as receiver; concretely, a Success
wrapping `"hi"` yields `"HI"` from `toUpperCase()` and a Success wrapping
`123.456` yields `"123.46"` from `toFixed(2)`. -/
theorem claim_C4_primitive_boxing (fuel : Nat) (h : Heap) (a : Nat) (p : PrimV) (m : String)
    (hl : h.lookup a = some (.result (mkResultData (.okParams (.prim p)))))
    (hm : m ∉ RESULT_KEYS) :
    resultGet (fuel + 1) h a m = .ok (bindIfFn (boxedGet p m) (.hostThis (.boxed p))) ∧
    callMember 1 ⟨[.result (mkResultData (.okParams (.prim (.str "hi"))))]⟩ 0
      "toUpperCase" [] = .ok (.prim (.str "HI")) ∧
    callMember 1 ⟨[.result (mkResultData (.okParams (.prim (.num (mkRat 123456 1000)))))]⟩ 0
      "toFixed" [.prim (.num 2)] = .ok (.prim (.str "123.46")) := by
  refine ⟨?_, by decide, by decide⟩
  by_cases hthen : m = "then"
  · rw [hthen]
    have hrhs : bindIfFn (boxedGet p "then") (.hostThis (.boxed p)) = .undefined := by
      cases p <;> simp [boxedGet, protoGet.objProtoGet, bindIfFn]
    rw [hrhs]
    simp [resultGet, hl]
  · simp [resultGet, hl, hthen, hm, isErrCall, unwrapDispatch, mkResultData, lookupField,
      resultOwnProp, truthy]

/-- Witness for C4 at a concrete primitive Success and member name. -/
theorem claim_C4_primitive_boxing_witness :
    resultGet 1 ⟨[.result (mkResultData (.okParams (.prim (.str "hi"))))]⟩ 0 "toUpperCase" =
      .ok (bindIfFn (boxedGet (.str "hi") "toUpperCase") (.hostThis (.boxed (.str "hi")))) :=
  (claim_C4_primitive_boxing 0 ⟨[.result (mkResultData (.okParams (.prim (.str "hi"))))]⟩
    0 (.str "hi") "toUpperCase" rfl (by decide)).1

/-- Claim C5: writing a non-reserved member: on a Failure, or on a Success
wrapping `null`/`undefined` or a primitive, the write is accepted without
raising and leaves the heap unchanged; on a Success wrapping an object (or a
function object) the write is forwarded to the wrapped value's own storage,
and re-reading through `unwrap()` still yields the same (now updated)
object. -/
theorem claim_C5_set_forwarding (fuel : Nat) (h : Heap) (a : Nat) (m : String) (v : JSValue)
    (hm : m ∉ RESULT_KEYS) :
    (∀ e, h.lookup a = some (.result (mkResultData (.errParams e))) →
      resultSet (fuel + 1) h a m v = .ok (true, h)) ∧
    (∀ d, h.lookup a = some (.result (mkResultData (.okParams d))) →
      (d = .null ∨ d = .undefined ∨ ∃ p, d = .prim p) →
      resultSet (fuel + 1) h a m v = .ok (true, h)) ∧
    (∀ ia fields, h.lookup a = some (.result (mkResultData (.okParams (.ref ia)))) →
      h.lookup ia = some (.plain fields) →
      resultSet (fuel + 1) h a m v = .ok (true, h.update ia (.plain (setField fields m v))) ∧
      lookupField (setField fields m v) m = some v ∧
      callMember (fuel + 1) (h.update ia (.plain (setField fields m v))) a "unwrap" [] =
        .ok (.ref ia)) ∧
    (∀ ia fields, h.lookup a = some (.result (mkResultData (.okParams (.ref ia)))) →
      h.lookup ia = some (.funcO fields) →
      resultSet (fuel + 1) h a m v = .ok (true, h.update ia (.funcO (setField fields m v)))) := by
  refine ⟨?_, ?_, ?_, ?_⟩
  · intro e hl
    simp [resultSet, hl, hm, isErrCall, mkResultData, lookupField, resultOwnProp, truthy]
  · intro d hl hd
    rcases hd with rfl | rfl | ⟨p, rfl⟩ <;>
      simp [resultSet, hl, hm, isErrCall, unwrapDispatch, mkResultData, lookupField,
        resultOwnProp, truthy]
  · intro ia fields hl hio
    have hne : ia ≠ a := by
      intro hEq
      rw [hEq] at hio
      rw [hl] at hio
      exact Option.noConfusion hio (fun h' => HeapObj.noConfusion h')
    have hl2 : (h.update ia (.plain (setField fields m v))).lookup a =
        some (.result (mkResultData (.okParams (.ref ia)))) := by
      rw [Heap.lookup_update_ne _ _ _ _ hne, hl]
    refine ⟨?_, lookupField_setField fields m v, ?_⟩
    · simp [resultSet, hl, hio, hm, isErrCall, unwrapDispatch, mkResultData, lookupField,
        resultOwnProp, truthy]
    · simp [callMember, resultGet, hl2, RESULT_KEYS, resultMemberGet, mkResultData,
        lookupField, protoGet, bindIfFn, callFn, callWithThis, callResultMethod, resultOwnProp]
  · intro ia fields hl hio
    simp [resultSet, hl, hio, hm, isErrCall, unwrapDispatch, mkResultData, lookupField,
      resultOwnProp, truthy]

/-- Witness for C5 at concrete heaps: a Failure write, a primitive-Success
write, and an object-Success write (the `count` field test scenario). -/
theorem claim_C5_set_forwarding_witness :
    resultSet 1 ⟨[.result (mkResultData (.errParams (.prim (.str "err"))))]⟩ 0 "foo"
      (.prim (.str "bar")) = .ok (true, ⟨[.result (mkResultData (.errParams (.prim (.str "err"))))]⟩) ∧
    resultSet 1 ⟨[.result (mkResultData (.okParams (.prim (.str "hello"))))]⟩ 0 "foo"
      (.prim (.str "bar")) = .ok (true, ⟨[.result (mkResultData (.okParams (.prim (.str "hello"))))]⟩) ∧
    resultSet 1 ⟨[.plain [("count", .prim (.num 0))], .result (mkResultData (.okParams (.ref 0)))]⟩
      1 "count" (.prim (.num 1)) =
      .ok (true, ⟨[.plain [("count", .prim (.num 1))], .result (mkResultData (.okParams (.ref 0)))]⟩) ∧
    callMember 1 ⟨[.plain [("count", .prim (.num 1))], .result (mkResultData (.okParams (.ref 0)))]⟩
      1 "unwrap" [] = .ok (.ref 0) := by
  have h1 := (claim_C5_set_forwarding 0 ⟨[.result (mkResultData (.errParams (.prim (.str "err"))))]⟩
    0 "foo" (.prim (.str "bar")) (by decide)).1 (.prim (.str "err")) rfl
  have h2 := (claim_C5_set_forwarding 0 ⟨[.result (mkResultData (.okParams (.prim (.str "hello"))))]⟩
    0 "foo" (.prim (.str "bar")) (by decide)).2.1 (.prim (.str "hello")) rfl
    (Or.inr (Or.inr ⟨.str "hello", rfl⟩))
  have h3 := (claim_C5_set_forwarding 0
    ⟨[.plain [("count", .prim (.num 0))], .result (mkResultData (.okParams (.ref 0)))]⟩
    1 "count" (.prim (.num 1)) (by decide)).2.2.1 0 [("count", .prim (.num 0))] rfl rfl
  exact ⟨h1, h2, h3.1, h3.2.2⟩

/-- Claim C6: writing a reserved API name writes directly to the Result
object's own storage for that name; in particular, after
`result.success = false` on a Result constructed either way, `isOk()`
returns `false` and `isErr()` returns `true`. -/
theorem claim_C6_reserved_write (fuel : Nat) (h : Heap) (a : Nat) (rd : ResultData)
    (k : String) (v : JSValue) (hl : h.lookup a = some (.result rd)) (hk : k ∈ RESULT_KEYS) :
    resultSet (fuel + 1) h a k v =
      .ok (true, h.update a (.result { rd with ownProps := setField rd.ownProps k v })) ∧
    (∀ p : ResultParams, rd = mkResultData p →
      resultSet (fuel + 1) h a "success" (.prim (.bool false)) =
        .ok (true, h.update a
          (.result { rd with ownProps := setField rd.ownProps "success" (.prim (.bool false)) })) ∧
      callMember (fuel + 1)
        (h.update a (.result { rd with ownProps := setField rd.ownProps "success" (.prim (.bool false)) }))
        a "isOk" [] = .ok (.prim (.bool false)) ∧
      callMember (fuel + 1)
        (h.update a (.result { rd with ownProps := setField rd.ownProps "success" (.prim (.bool false)) }))
        a "isErr" [] = .ok (.prim (.bool true))) := by
  refine ⟨by simp [resultSet, hl, hk], ?_⟩
  intro p hrd
  subst hrd
  cases p with
  | okParams d =>
      have h2 : (h.update a (.result ⟨.ok, [("success", .prim (.bool false))], d⟩)).lookup a =
          some (.result ⟨.ok, [("success", .prim (.bool false))], d⟩) :=
        Heap.lookup_update_self h a _ _ hl
      refine ⟨?_, ?_, ?_⟩ <;>
        simp [resultSet, hl, RESULT_KEYS, callMember, resultGet, h2, resultMemberGet,
          mkResultData, setField, lookupField, protoGet, bindIfFn, callFn, callWithThis,
          callResultMethod, resultOwnProp, truthy]
  | errParams e =>
      have h2 : (h.update a
          (.result ⟨.err, [("success", .prim (.bool false)), ("error", e)], .undefined⟩)).lookup a =
          some (.result ⟨.err, [("success", .prim (.bool false)), ("error", e)], .undefined⟩) :=
        Heap.lookup_update_self h a _ _ hl
      refine ⟨?_, ?_, ?_⟩ <;>
        simp [resultSet, hl, RESULT_KEYS, callMember, resultGet, h2, resultMemberGet,
          mkResultData, setField, lookupField, protoGet, bindIfFn, callFn, callWithThis,
          callResultMethod, resultOwnProp, truthy]

/-- Witness for C6: forcing `success = false` on a freshly constructed Ok. -/
theorem claim_C6_reserved_write_witness :
    resultSet 1 ⟨[.result (mkResultData (.okParams (.prim (.num 5))))]⟩ 0 "success"
      (.prim (.bool false)) =
      .ok (true, ⟨[.result ⟨.ok, [("success", .prim (.bool false))], .prim (.num 5)⟩]⟩) ∧
    callMember 1 ⟨[.result ⟨.ok, [("success", .prim (.bool false))], .prim (.num 5)⟩]⟩ 0
      "isOk" [] = .ok (.prim (.bool false)) ∧
    callMember 1 ⟨[.result ⟨.ok, [("success", .prim (.bool false))], .prim (.num 5)⟩]⟩ 0
      "isErr" [] = .ok (.prim (.bool true)) := by
  have hc := (claim_C6_reserved_write 0 ⟨[.result (mkResultData (.okParams (.prim (.num 5))))]⟩
    0 (mkResultData (.okParams (.prim (.num 5)))) "success" (.prim (.bool false)) rfl
    (by decide)).2 (.okParams (.prim (.num 5))) rfl
  exact ⟨hc.1, hc.2.1, hc.2.2⟩

/-- Claim C9: on a Result constructed as a Success, after the escape-hatch
write `result.success = false`, `isErr()` returns `true`, yet `unwrap()`
still returns the originally held value without raising (it is `_Ok.unwrap`,
reading the private `#data` slot), and reading the `error` member yields
`undefined` — the tag and the raise behavior of `unwrap()` come apart. -/
theorem claim_C9_flipped_ok (fuel : Nat) (h : Heap) (d : JSValue) :
    resultSet (fuel + 1) (newResult h (.okParams d)).1 (newResult h (.okParams d)).2
      "success" (.prim (.bool false)) = .ok (true, (escapeHatchOk h d).1) ∧
    callMember (fuel + 1) (escapeHatchOk h d).1 (escapeHatchOk h d).2 "isErr" [] =
      .ok (.prim (.bool true)) ∧
    callMember (fuel + 1) (escapeHatchOk h d).1 (escapeHatchOk h d).2 "unwrap" [] = .ok d ∧
    resultGet (fuel + 1) (escapeHatchOk h d).1 (escapeHatchOk h d).2 "error" =
      .ok .undefined := by
  have h2 : ((newResult h (.okParams d)).1.update (newResult h (.okParams d)).2
      (.result ⟨.ok, [("success", .prim (.bool false))], d⟩)).lookup
      (newResult h (.okParams d)).2 =
      some (.result ⟨.ok, [("success", .prim (.bool false))], d⟩) :=
    Heap.lookup_update_self _ _ _ _ (Heap.lookup_newResult h (.okParams d))
  refine ⟨?_, ?_, ?_, ?_⟩ <;>
    simp [resultSet, Heap.lookup_newResult, RESULT_KEYS, escapeHatchOk, mkResultData, setField,
      callMember, resultGet, h2, resultMemberGet, lookupField, protoGet, protoGet.objProtoGet,
      bindIfFn, callFn, callWithThis, callResultMethod, resultOwnProp, truthy]

/-- Claim C10: on a Result constructed as a Failure, the reserved-name write
`result.error = e2` replaces the stored error in the Result's own storage,
and subsequent `unwrap()` and `throw()` raise `e2` rather than the
originally constructed error. -/
theorem claim_C10_error_replace (fuel : Nat) (h : Heap) (e e2 : JSValue) :
    resultSet (fuel + 1) (newResult h (.errParams e)).1 (newResult h (.errParams e)).2
      "error" e2 = .ok (true, (escapeHatchErr h e e2).1) ∧
    callMember (fuel + 1) (escapeHatchErr h e e2).1 (escapeHatchErr h e e2).2 "unwrap" [] =
      .error e2 ∧
    callMember (fuel + 1) (escapeHatchErr h e e2).1 (escapeHatchErr h e e2).2 "throw" [] =
      .error e2 := by
  have h2 : ((newResult h (.errParams e)).1.update (newResult h (.errParams e)).2
      (.result ⟨.err, [("success", .prim (.bool false)), ("error", e2)], .undefined⟩)).lookup
      (newResult h (.errParams e)).2 =
      some (.result ⟨.err, [("success", .prim (.bool false)), ("error", e2)], .undefined⟩) :=
    Heap.lookup_update_self _ _ _ _ (Heap.lookup_newResult h (.errParams e))
  refine ⟨?_, ?_, ?_⟩ <;>
    simp [resultSet, Heap.lookup_newResult, RESULT_KEYS, escapeHatchErr, mkResultData, setField,
      callMember, resultGet, h2, resultMemberGet, lookupField, protoGet, bindIfFn, callFn,
      callWithThis, callResultMethod, resultOwnProp, truthy]

/-- Claim C8, counterexample: on a Success wrapping `null`, reading the
non-reserved member `"toString"` does *not* yield `undefined`: `Object(null)`
is an ordinary empty object that inherits `Object.prototype`, so the read
yields `Object.prototype.toString` bound to that box. -/
theorem claim_C8_counterexample :
    resultGet 1 ⟨[.result (mkResultData (.okParams .null))]⟩ 0 "toString" =
      .ok (.fnv (.bound (.nativeMethod .objToString) (.hostThis .emptyBox))) ∧
    ¬ resultGet 1 ⟨[.result (mkResultData (.okParams .null))]⟩ 0 "toString" =
      .ok .undefined := by
  refine ⟨by decide, ?_⟩
  intro hc
  rw [show resultGet 1 ⟨[.result (mkResultData (.okParams .null))]⟩ 0 "toString" =
      .ok (.fnv (.bound (.nativeMethod .objToString) (.hostThis .emptyBox))) from by decide] at hc
  simp at hc

/-- Claim C8, amended: on a Success wrapping `null` or `undefined`, reading a
non-reserved member name that is also not one of the members inherited from
the base object prototype (here `protoGet.objProtoGet`, the modelled
`Object.prototype` subset) yields `undefined`. -/
theorem claim_C8_null_box_undefined (fuel : Nat) (h : Heap) (a : Nat) (d : JSValue) (m : String)
    (hl : h.lookup a = some (.result (mkResultData (.okParams d))))
    (hd : d = .null ∨ d = .undefined)
    (hm : m ∉ RESULT_KEYS) (hproto : protoGet.objProtoGet m = .undefined) :
    resultGet (fuel + 1) h a m = .ok .undefined := by
  by_cases hthen : m = "then"
  · rw [hthen]
    simp [resultGet, hl]
  · rcases hd with rfl | rfl <;>
      simp [resultGet, hl, hthen, hm, isErrCall, unwrapDispatch, mkResultData, lookupField,
        resultOwnProp, truthy, plainGet, bindIfFn, hproto]

/-- Witness for the amended C8 at the member name `"foo"` on `Ok(null)`. -/
theorem claim_C8_null_box_undefined_witness :
    resultGet 1 ⟨[.result (mkResultData (.okParams .null))]⟩ 0 "foo" = .ok .undefined :=
  claim_C8_null_box_undefined 0 ⟨[.result (mkResultData (.okParams .null))]⟩ 0 .null "foo"
    rfl (Or.inl rfl) (by decide) (by decide)
